import Mathlib

/-!
Verification of the flyrs installer (src/main.rs) against its specification.

The program is sequential orchestration of external commands. We embed it
shallowly: a `World` oracle answers every filesystem query and gives the
exit status of every external command invocation; each Rust function
becomes a Lean function returning its `Except`-style result paired with
the ordered trace of external side effects (`Event`s) it performed.
-/

set_option maxHeartbeats 1000000

/-- A directory entry as seen by `fs::read_dir`: its full path and whether
it is a directory. -/
structure DirEntry where
  path : String
  isDir : Bool
deriving DecidableEq, Repr

/-- External side effects performed by the program, in order. -/
inductive Event where
  /-- `which <dep>` invocation (dependency presence check). -/
  | whichCmd (dep : String)
  /-- `sh -c <cmd>` invocation (the composite install command). -/
  | shCmd (cmd : String)
  /-- `sudo mkdir -p <dir>`. -/
  | sudoMkdir (dir : String)
  /-- `sudo rsync -a --delete <src>/ <dest>/`. -/
  | sudoRsync (src : String) (dest : String)
  /-- `sudo find <dir> -type d -exec chmod 755`. -/
  | sudoChmodDirs (dir : String)
  /-- `sudo find <dir> -type f -exec chmod 644`. -/
  | sudoChmodFiles (dir : String)
  /-- `sudo find <dir> -name *.bin -exec chmod 755`. -/
  | sudoChmodBin (dir : String)
  /-- `7z x -y -o<outDir> <archive>`. -/
  | extract7z (archive : String) (outDir : String)
  /-- `fs::create_dir_all(dir)`. -/
  | fsCreateDirAll (dir : String)
  /-- `fs::remove_dir_all` / `fs::remove_file` of one entry. -/
  | fsRemove (path : String)
deriving DecidableEq, Repr

/-- The oracle for one program run: every filesystem query result and the
success of every external command the program may issue. -/
structure World where
  /-- Exit status of `which dep` is success. -/
  whichOk : String → Bool
  /-- `Path::new(p).exists()`. -/
  pathExists : String → Bool
  /-- Exit status of `sh -c cmd` is success. -/
  shOk : String → Bool
  /-- Exit status of `sudo mkdir -p dir` is success. -/
  mkdirOk : String → Bool
  /-- Exit status of `sudo rsync src/ dest/` is success. -/
  rsyncOk : String → String → Bool
  /-- Exit status of the chmod-755-directories pass is success. -/
  chmodDirsOk : String → Bool
  /-- Exit status of the chmod-644-files pass is success. -/
  chmodFilesOk : String → Bool
  /-- Exit status of the chmod-755-on-bin-files pass is success. -/
  chmodBinOk : String → Bool
  /-- Exit status of `7z x -y -o<out> archive` is success. -/
  sevenZipOk : String → String → Bool
  /-- `fs::read_dir(p)?.next().is_none()`: directory p is empty. -/
  dirEmpty : String → Bool
  /-- Entries of the scratch directory at clearing time. -/
  scratchEntries : List DirEntry
  /-- Entries of the scratch directory right after extraction. -/
  extractedEntries : List DirEntry
  /-- `Local::now().format` timestamp used for the backup directory name. -/
  timestamp : String

/-- The result of a (possibly failing) step together with the trace of
external side effects it performed, in order. -/
abbrev CmdResult (α : Type) := Except String α × List Event

/-- Sequencing: run `m`; on success feed its value to `f`, concatenating
traces; on failure stop, keeping the trace so far. -/
def seqCmd {α β : Type} (m : CmdResult α) (f : α → CmdResult β) : CmdResult β :=
  match m with
  | (Except.ok a, t) =>
    match f a with
    | (r, t2) => (r, t ++ t2)
  | (Except.error e, t) => (Except.error e, t)

/-- Rust `struct PackageManager` (src/main.rs lines 103-107). -/
structure PackageManager where
  name : String
  update_cmd : String
  install_args : String
deriving DecidableEq, Repr

/-- The package-manager descriptor table built in `main`
(src/main.rs lines 25-41). -/
def defaultPackageManagers : List PackageManager :=
  [⟨"pacman", "sudo pacman -Sy", "-S --noconfirm"⟩,
   ⟨"apt", "sudo apt update", "install -y"⟩,
   ⟨"dnf", "sudo dnf check-update", "install -y"⟩]

/-- The dependency list built in `main` (src/main.rs line 43). -/
def defaultDependencies : List String := ["curl", "7z", "rsync"]

/-- `const RIME_SYSTEM_DIR` (src/main.rs line 16). -/
def RIME_SYSTEM_DIR : String := "/usr/share/rime-data"

/-- The dependencies whose `which` check failed, in original order
(the `missing_deps` vector of src/main.rs lines 116-132). -/
def missingDeps (w : World) (deps : List String) : List String :=
  deps.filter (fun d => !(w.whichOk d))

/-- Package-manager detection (src/main.rs lines 139-141): the first
descriptor whose binary exists at /usr/bin/<name>. -/
def resolvePackageManager (w : World) (pms : List PackageManager) :
    Option PackageManager :=
  pms.find? (fun pm => w.pathExists ("/usr/bin/" ++ pm.name))

/-- Rust `{:?}` debug rendering of a `Vec<String>`. -/
def debugStrList (l : List String) : String :=
  "[" ++ String.intercalate ", " (l.map (fun s => "\x22" ++ s ++ "\x22")) ++ "]"

/-- The composite install command of src/main.rs lines 148-152:
`format!("{} && sudo {} {} {}", pm.update_cmd, pm.name, pm.install_args, deps)`
with `deps = missing_deps.join(" ")`. -/
def installCmd (pm : PackageManager) (missing : List String) : String :=
  pm.update_cmd ++ " && sudo " ++ pm.name ++ " " ++ pm.install_args ++ " " ++
    String.intercalate " " missing

/-- `check_and_install_dependencies` (src/main.rs lines 110-181): run
`which` for each dependency; if any is missing, detect a package manager
and run the composite install command through `sh -c`, failing on
non-zero exit; fail if no package manager is detected. -/
def check_and_install_dependencies (w : World) (pms : List PackageManager)
    (deps : List String) : CmdResult Unit :=
  let whichTrace := deps.map Event.whichCmd
  let missing := missingDeps w deps
  if missing.isEmpty then (Except.ok (), whichTrace)
  else
    match resolvePackageManager w pms with
    | some pm =>
      let cmd := installCmd pm missing
      if w.shOk cmd then (Except.ok (), whichTrace ++ [Event.shCmd cmd])
      else (Except.error ("依赖安装失败: " ++ cmd), whichTrace ++ [Event.shCmd cmd])
    | none =>
      (Except.error ("无法确定包管理器，请手动安装: " ++ debugStrList missing),
        whichTrace)

/-- `find_config_directory` (src/main.rs lines 184-202): first entry that
is a directory; else the extraction root itself if any entry exists; else
an error. `listing` is the result of `fs::read_dir(extract_dir)`. -/
def find_config_directory (listing : List DirEntry) (extract_dir : String) :
    Except String String :=
  match listing.find? (fun e => e.isDir) with
  | some e => Except.ok e.path
  | none =>
    if !listing.isEmpty then Except.ok extract_dir
    else Except.error "解压后未找到配置文件目录"

/-- `get_config_from_local` (src/main.rs lines 205-252): create the
output directory if missing, remove every existing entry of it, run `7z`,
then locate the configuration directory among the extracted entries. -/
def get_config_from_local (w : World) (local_path : String)
    (output_dir : String) : CmdResult String :=
  let mkTrace :=
    if !(w.pathExists output_dir) then [Event.fsCreateDirAll output_dir] else []
  let clearTrace := w.scratchEntries.map (fun e => Event.fsRemove e.path)
  let t := mkTrace ++ clearTrace ++ [Event.extract7z local_path output_dir]
  if !(w.sevenZipOk local_path output_dir) then
    (Except.error "解压配置文件失败", t)
  else
    match find_config_directory w.extractedEntries output_dir with
    | Except.ok config_dir => (Except.ok config_dir, t)
    | Except.error e => (Except.error e, t)

/-- `get_config_files` (src/main.rs lines 255-267): try the local path if
given; on any failure fall through to the generic acquisition error. -/
def get_config_files (w : World) (local_path : Option String) :
    CmdResult String :=
  match local_path with
  | some p =>
    match get_config_from_local w p "./extracted" with
    | (Except.ok config_dir, t) => (Except.ok config_dir, t)
    | (Except.error _, t) => (Except.error "无法获取配置文件，请检查本地路径", t)
  | none => (Except.error "无法获取配置文件，请检查本地路径", [])

/-- `create_dir_with_sudo` (src/main.rs lines 322-332). -/
def create_dir_with_sudo (w : World) (dir : String) : CmdResult Unit :=
  if w.mkdirOk dir then (Except.ok (), [Event.sudoMkdir dir])
  else (Except.error ("创建目录失败: " ++ dir), [Event.sudoMkdir dir])

/-- `run_rsync_with_sudo` (src/main.rs lines 334-363). -/
def run_rsync_with_sudo (w : World) (src dest : String) : CmdResult Unit :=
  if w.rsyncOk src dest then (Except.ok (), [Event.sudoRsync src dest])
  else (Except.error "rsync 失败", [Event.sudoRsync src dest])

/-- `fix_permissions` (src/main.rs lines 366-422): chmod 755 on
directories (fatal on failure), chmod 644 on regular files (fatal on
failure), chmod 755 on `*.bin` files (non-zero exit only logged). -/
def fix_permissions (w : World) (rime_system_dir : String) : CmdResult Unit :=
  if !(w.chmodDirsOk rime_system_dir) then
    (Except.error "设置目录权限失败", [Event.sudoChmodDirs rime_system_dir])
  else if !(w.chmodFilesOk rime_system_dir) then
    (Except.error "设置文件权限失败",
      [Event.sudoChmodDirs rime_system_dir, Event.sudoChmodFiles rime_system_dir])
  else
    (Except.ok (),
      [Event.sudoChmodDirs rime_system_dir, Event.sudoChmodFiles rime_system_dir,
       Event.sudoChmodBin rime_system_dir])

/-- The backup branch of `copy_to_system_dir` (src/main.rs lines 288-304):
if the target exists, create the backup directory, then mirror the target
into it when the target is non-empty. -/
def backupPhase (w : World) (rime_system_dir backup_dir : String) :
    CmdResult Unit :=
  if w.pathExists rime_system_dir then
    seqCmd (create_dir_with_sudo w backup_dir) (fun _ =>
      if !(w.dirEmpty rime_system_dir) then
        run_rsync_with_sudo w rime_system_dir backup_dir
      else (Except.ok (), []))
  else (Except.ok (), [])

/-- `copy_to_system_dir` (src/main.rs lines 270-319): check the source
exists, back up the target if present, ensure the target exists, mirror
the source into it, fix permissions. `backup_dir` is the timestamped name
computed at lines 282-285. -/
def copy_to_system_dir (w : World) (config_dir rime_system_dir backup_dir : String) :
    CmdResult Unit :=
  if !(w.pathExists config_dir) then
    (Except.error ("配置源目录不存在: " ++ config_dir), [])
  else
    seqCmd (backupPhase w rime_system_dir backup_dir) (fun _ =>
      seqCmd (create_dir_with_sudo w rime_system_dir) (fun _ =>
        seqCmd (run_rsync_with_sudo w config_dir rime_system_dir) (fun _ =>
          fix_permissions w rime_system_dir)))

/-- The backup directory name computed in `copy_to_system_dir`
(src/main.rs lines 282-285). -/
def backupDirOf (w : World) : String :=
  "/usr/share/rime-backup-" ++ w.timestamp

/-- The archive path literal of src/main.rs line 49. -/
def defaultArchive : String := "./小鹤音形“鼠须管”for macOS.zip"

/-- The orchestration of `main` after logger initialization
(src/main.rs lines 25-69): install dependencies, acquire the
configuration, synchronize it into the system directory; stop at the
first failure. `Except.ok` corresponds to process exit status zero. -/
def mainFlow (w : World) : CmdResult Unit :=
  seqCmd (check_and_install_dependencies w defaultPackageManagers defaultDependencies)
    (fun _ =>
      seqCmd (get_config_files w (some defaultArchive)) (fun config_dir =>
        copy_to_system_dir w config_dir RIME_SYSTEM_DIR (backupDirOf w)))

theorem find?_eq_some_split {α : Type} (p : α → Bool) (l : List α) (x : α)
    (h : l.find? p = some x) :
    ∃ l1 l2, l = l1 ++ x :: l2 ∧ p x = true ∧ ∀ y ∈ l1, p y = false := by
  induction l with
  | nil => simp [List.find?] at h
  | cons a t ih =>
    by_cases ha : p a = true
    · rw [List.find?_cons_of_pos _ ha] at h
      injection h with h
      exact ⟨[], t, by simp [h], h ▸ ha, by simp⟩
    · rw [List.find?_cons_of_neg _ (by simpa using ha)] at h
      obtain ⟨l1, l2, hl, hx, hall⟩ := ih h
      exact ⟨a :: l1, l2, by simp [hl], hx, by
        intro y hy
        rcases List.mem_cons.mp hy with rfl | hy
        · simpa using ha
        · exact hall y hy⟩

/-- A run in which every query succeeds: every dependency present, every
path exists, every command exits zero, the target directory non-empty. -/
def allOkWorld : World where
  whichOk _ := true
  pathExists _ := true
  shOk _ := true
  mkdirOk _ := true
  rsyncOk _ _ := true
  chmodDirsOk _ := true
  chmodFilesOk _ := true
  chmodBinOk _ := true
  sevenZipOk _ _ := true
  dirEmpty _ := false
  scratchEntries := []
  extractedEntries := [DirEntry.mk "./extracted/flypy" true]
  timestamp := "20250101_120000"

/-- C2: the resolver returns the first descriptor (in list order) whose
binary exists at /usr/bin/<name>; it returns none exactly when no
descriptor's binary exists there; and in that case, with missing
dependencies, the installer fails with the no-package-manager error. -/
theorem resolver_first_match (w : World) (pms : List PackageManager)
    (deps : List String) :
    (∀ pm, resolvePackageManager w pms = some pm →
      ∃ l1 l2, pms = l1 ++ pm :: l2 ∧
        w.pathExists ("/usr/bin/" ++ pm.name) = true ∧
        ∀ q ∈ l1, w.pathExists ("/usr/bin/" ++ q.name) = false)
    ∧ (resolvePackageManager w pms = none ↔
        ∀ pm ∈ pms, w.pathExists ("/usr/bin/" ++ pm.name) = false)
    ∧ (missingDeps w deps ≠ [] → resolvePackageManager w pms = none →
        (check_and_install_dependencies w pms deps).1 =
          Except.error
            ("无法确定包管理器，请手动安装: " ++ debugStrList (missingDeps w deps))) := by
  refine ⟨?_, ?_, ?_⟩
  · intro pm h
    exact find?_eq_some_split _ _ _ h
  · constructor
    · intro h pm hmem
      have := List.find?_eq_none.mp h pm hmem
      simpa using this
    · intro h
      exact List.find?_eq_none.mpr (fun pm hmem => by simp [h pm hmem])
  · intro hm hnone
    have hne : (missingDeps w deps).isEmpty = false := by
      cases hmd : missingDeps w deps with
      | nil => exact absurd hmd hm
      | cons a t => simp [hmd, List.isEmpty]
    simp [check_and_install_dependencies, hne, hnone]

/-- Witness for C2 at a concrete world: no binary under /usr/bin, all
three dependencies missing. -/
theorem resolver_first_match_witness :
    (check_and_install_dependencies
        { allOkWorld with whichOk := fun _ => false, pathExists := fun _ => false }
        defaultPackageManagers defaultDependencies).1 =
      Except.error
        ("无法确定包管理器，请手动安装: " ++
          debugStrList (missingDeps
            { allOkWorld with whichOk := fun _ => false, pathExists := fun _ => false }
            defaultDependencies)) :=
  (resolver_first_match _ defaultPackageManagers defaultDependencies).2.2
    (by decide) (by decide)

/-- C4: when every dependency's `which` lookup succeeds, the installer
succeeds immediately and its side-effect trace is exactly the `which`
invocations: no shell command, no install invocation of any kind. -/
theorem all_present_no_install (w : World) (pms : List PackageManager)
    (deps : List String) (h : ∀ d ∈ deps, w.whichOk d = true) :
    check_and_install_dependencies w pms deps =
      (Except.ok (), deps.map Event.whichCmd) := by
  have hm : missingDeps w deps = [] := by
    simp only [missingDeps]
    exact List.filter_eq_nil_iff.mpr (fun d hd => by simp [h d hd])
  simp [check_and_install_dependencies, hm]

/-- Witness for C4: all dependencies present in `allOkWorld`. -/
theorem all_present_no_install_witness :
    check_and_install_dependencies allOkWorld defaultPackageManagers
        defaultDependencies =
      (Except.ok (), defaultDependencies.map Event.whichCmd) :=
  all_present_no_install allOkWorld defaultPackageManagers defaultDependencies
    (by decide)

/-- C3: with a non-empty missing list and a resolved descriptor, the one
executed shell command is the update command, then " && sudo ", the
manager name, the install-args template, and the missing names
space-joined; the missing list preserves the original dependency order
and (for a duplicate-free dependency list) holds each missing dependency
exactly once. -/
theorem install_cmd_composition (w : World) (pms : List PackageManager)
    (deps : List String) (pm : PackageManager)
    (hnd : deps.Nodup)
    (hm : missingDeps w deps ≠ [])
    (hpm : resolvePackageManager w pms = some pm) :
    (check_and_install_dependencies w pms deps).2 =
      deps.map Event.whichCmd ++
        [Event.shCmd (installCmd pm (missingDeps w deps))]
    ∧ installCmd pm (missingDeps w deps) =
        pm.update_cmd ++ " && sudo " ++ pm.name ++ " " ++ pm.install_args ++
          " " ++ String.intercalate " " (missingDeps w deps)
    ∧ (missingDeps w deps).Sublist deps
    ∧ ∀ d ∈ missingDeps w deps, (missingDeps w deps).count d = 1 := by
  have hne : (missingDeps w deps).isEmpty = false := by
    cases hmd : missingDeps w deps with
    | nil => exact absurd hmd hm
    | cons a t => simp [hmd, List.isEmpty]
  refine ⟨?_, rfl, List.filter_sublist deps, ?_⟩
  · cases hsh : w.shOk (installCmd pm (missingDeps w deps)) <;>
      simp [check_and_install_dependencies, hne, hpm, hsh]
  · intro d hd
    exact List.count_eq_one_of_mem (hnd.filter _) hd

/-- Witness for C3: only `curl` missing, pacman detected. -/
theorem install_cmd_composition_witness :
    (check_and_install_dependencies
        { allOkWorld with whichOk := fun d => !(d == "curl") }
        defaultPackageManagers defaultDependencies).2 =
      defaultDependencies.map Event.whichCmd ++
        [Event.shCmd (installCmd ⟨"pacman", "sudo pacman -Sy", "-S --noconfirm"⟩
          (missingDeps { allOkWorld with whichOk := fun d => !(d == "curl") }
            defaultDependencies))]
    ∧ installCmd ⟨"pacman", "sudo pacman -Sy", "-S --noconfirm"⟩
        (missingDeps { allOkWorld with whichOk := fun d => !(d == "curl") }
          defaultDependencies) =
        "sudo pacman -Sy" ++ " && sudo " ++ "pacman" ++ " " ++ "-S --noconfirm" ++
          " " ++ String.intercalate " "
            (missingDeps { allOkWorld with whichOk := fun d => !(d == "curl") }
              defaultDependencies)
    ∧ (missingDeps { allOkWorld with whichOk := fun d => !(d == "curl") }
        defaultDependencies).Sublist defaultDependencies
    ∧ ∀ d ∈ missingDeps { allOkWorld with whichOk := fun d => !(d == "curl") }
          defaultDependencies,
        (missingDeps { allOkWorld with whichOk := fun d => !(d == "curl") }
          defaultDependencies).count d = 1 :=
  install_cmd_composition
    { allOkWorld with whichOk := fun d => !(d == "curl") }
    defaultPackageManagers defaultDependencies
    ⟨"pacman", "sudo pacman -Sy", "-S --noconfirm"⟩
    (by decide) (by decide) (by decide)

theorem find?_append_first {α : Type} (p : α → Bool) (l1 l2 : List α) (x : α)
    (hx : p x = true) (h1 : ∀ y ∈ l1, p y = false) :
    (l1 ++ x :: l2).find? p = some x := by
  induction l1 with
  | nil => simp [List.find?_cons_of_pos _ hx]
  | cons a t ih =>
    have ha : p a = false := h1 a (by simp)
    rw [List.cons_append, List.find?_cons_of_neg _ (by simp [ha])]
    exact ih (fun y hy => h1 y (by simp [hy]))

/-- C5: `find_config_directory` returns the path of the first directory
entry in enumeration order; with no directory entry but at least one
entry, it returns the scratch directory itself; with no entries at all,
it fails with the no-config-directory error. -/
theorem find_config_directory_spec (listing : List DirEntry) (dir : String) :
    (∀ p, find_config_directory listing dir = Except.ok p ↔
      ((∃ l1 e l2, listing = l1 ++ e :: l2 ∧ e.isDir = true ∧ p = e.path ∧
          ∀ x ∈ l1, x.isDir = false)
        ∨ (p = dir ∧ listing ≠ [] ∧ ∀ x ∈ listing, x.isDir = false)))
    ∧ (find_config_directory listing dir = Except.error "解压后未找到配置文件目录"
        ↔ listing = []) := by
  constructor
  · intro p
    constructor
    · intro h
      unfold find_config_directory at h
      cases hf : listing.find? (fun e => e.isDir) with
      | some e =>
        rw [hf] at h
        injection h with h
        obtain ⟨l1, l2, hl, he, hall⟩ := find?_eq_some_split _ _ _ hf
        exact Or.inl ⟨l1, e, l2, hl, he, h.symm, hall⟩
      | none =>
        rw [hf] at h
        by_cases hemp : listing.isEmpty
        · simp [hemp] at h
        · simp only [hemp, Bool.not_false] at h
          rw [if_pos (by simp [hemp])] at h
          injection h with h
          refine Or.inr ⟨h.symm, by simpa using hemp, ?_⟩
          intro x hx
          simpa using List.find?_eq_none.mp hf x hx
    · intro h
      rcases h with ⟨l1, e, l2, hl, he, hp, hall⟩ | ⟨hp, hne, hall⟩
      · subst hl
        unfold find_config_directory
        rw [find?_append_first _ _ _ _ he hall, hp]
      · have hf : listing.find? (fun e => e.isDir) = none :=
          List.find?_eq_none.mpr (fun x hx => by simp [hall x hx])
        unfold find_config_directory
        rw [hf, if_pos (by simpa using hne), hp]
  · constructor
    · intro h
      unfold find_config_directory at h
      cases hf : listing.find? (fun e => e.isDir) with
      | some e => rw [hf] at h; exact absurd h (by simp)
      | none =>
        rw [hf] at h
        by_cases hemp : listing.isEmpty
        · simpa using hemp
        · rw [if_pos (by simp [hemp])] at h
          exact absurd h (by simp)
    · intro h
      subst h
      rfl

/-- Witness for C5: one file then one directory; the directory is
returned though the file precedes it. -/
theorem find_config_directory_spec_witness :
    find_config_directory
        [⟨"./extracted/readme.txt", false⟩, ⟨"./extracted/flypy", true⟩]
        "./extracted" =
      Except.ok "./extracted/flypy" :=
  ((find_config_directory_spec
      [⟨"./extracted/readme.txt", false⟩, ⟨"./extracted/flypy", true⟩]
      "./extracted").1 "./extracted/flypy").mpr
    (Or.inl ⟨[⟨"./extracted/readme.txt", false⟩], ⟨"./extracted/flypy", true⟩,
      [], by decide, by decide, by decide, by decide⟩)

/-- C6: when the source configuration directory does not exist, `sync`
fails with the source-not-found error and performs no side effect at all
(empty trace: no backup, no target creation or modification). -/
theorem sync_source_missing (w : World) (cfg tgt b : String)
    (h : w.pathExists cfg = false) :
    copy_to_system_dir w cfg tgt b =
      (Except.error ("配置源目录不存在: " ++ cfg), []) := by
  simp [copy_to_system_dir, h]

/-- Witness for C6 at a world where no path exists. -/
theorem sync_source_missing_witness :
    copy_to_system_dir { allOkWorld with pathExists := fun _ => false }
        "./extracted/flypy" RIME_SYSTEM_DIR
        (backupDirOf { allOkWorld with pathExists := fun _ => false }) =
      (Except.error ("配置源目录不存在: " ++ "./extracted/flypy"), []) :=
  sync_source_missing _ _ RIME_SYSTEM_DIR _ rfl

/-- C7: `fix_permissions` succeeds exactly when the directory-mode pass
and the regular-file-mode pass succeed, whatever the `*.bin` pass's exit
status; when both passes succeed the `*.bin` pass is still run; a failing
directory pass or file pass is fatal with its own error; and the other
command wrappers (`create_dir_with_sudo`, `run_rsync_with_sudo`) turn a
non-zero exit into a fatal error, so the `*.bin` pass is the only
non-fatal command failure. -/
theorem bin_chmod_nonfatal (w : World) (dir src dest d2 : String) :
    ((fix_permissions w dir).1 = Except.ok () ↔
      (w.chmodDirsOk dir = true ∧ w.chmodFilesOk dir = true))
    ∧ (w.chmodDirsOk dir = true → w.chmodFilesOk dir = true →
        Event.sudoChmodBin dir ∈ (fix_permissions w dir).2)
    ∧ (w.chmodDirsOk dir = false →
        (fix_permissions w dir).1 = Except.error "设置目录权限失败")
    ∧ (w.chmodDirsOk dir = true → w.chmodFilesOk dir = false →
        (fix_permissions w dir).1 = Except.error "设置文件权限失败")
    ∧ ((create_dir_with_sudo w d2).1 = Except.ok () ↔ w.mkdirOk d2 = true)
    ∧ ((run_rsync_with_sudo w src dest).1 = Except.ok () ↔
        w.rsyncOk src dest = true) := by
  cases h1 : w.chmodDirsOk dir <;> cases h2 : w.chmodFilesOk dir <;>
    cases h3 : w.mkdirOk d2 <;> cases h4 : w.rsyncOk src dest <;>
      simp [fix_permissions, create_dir_with_sudo, run_rsync_with_sudo,
        h1, h2, h3, h4]

/-- Witness for C7: the `*.bin` pass exits non-zero yet `fix_permissions`
succeeds. -/
theorem bin_chmod_nonfatal_witness :
    (fix_permissions { allOkWorld with chmodBinOk := fun _ => false }
        RIME_SYSTEM_DIR).1 = Except.ok ()
    ∧ ({ allOkWorld with chmodBinOk := fun _ => false } : World).chmodBinOk
        RIME_SYSTEM_DIR = false :=
  ⟨(bin_chmod_nonfatal { allOkWorld with chmodBinOk := fun _ => false }
      RIME_SYSTEM_DIR "a" "b" "c").1.mpr ⟨rfl, rfl⟩, rfl⟩

/-- C10: when the extraction tool exits non-zero, `get_config_from_local`
fails with the extraction error, but its trace shows that every
pre-existing entry of the scratch directory has already been removed (and
the directory created if it was missing) before the `7z` invocation: the
clearing is not rolled back. -/
theorem extraction_clears_before_failure (w : World) (p out : String)
    (h7 : w.sevenZipOk p out = false) :
    get_config_from_local w p out =
      (Except.error "解压配置文件失败",
        (if !(w.pathExists out) then [Event.fsCreateDirAll out] else []) ++
          w.scratchEntries.map (fun e => Event.fsRemove e.path) ++
          [Event.extract7z p out]) := by
  simp [get_config_from_local, h7]

/-- Witness for C10: two entries are removed, then extraction fails. -/
theorem extraction_clears_before_failure_witness :
    get_config_from_local
        { allOkWorld with
            sevenZipOk := fun _ _ => false,
            scratchEntries :=
              [⟨"./extracted/old", true⟩, ⟨"./extracted/a.txt", false⟩] }
        defaultArchive "./extracted" =
      (Except.error "解压配置文件失败",
        (if !(({ allOkWorld with
                  sevenZipOk := fun _ _ => false,
                  scratchEntries :=
                    [⟨"./extracted/old", true⟩, ⟨"./extracted/a.txt", false⟩] } :
                World).pathExists "./extracted") then
            [Event.fsCreateDirAll "./extracted"]
          else []) ++
          [Event.fsRemove "./extracted/old", Event.fsRemove "./extracted/a.txt"] ++
          [Event.extract7z defaultArchive "./extracted"]) :=
  extraction_clears_before_failure _ defaultArchive "./extracted" rfl

/-- Counterexample to C1 as stated: in a run where the target system
directory exists and is empty, the backup directory creation command is
still issued (`sudo mkdir -p <backup>` appears in the trace). -/
theorem backup_on_empty_target_counterexample :
    ({ allOkWorld with dirEmpty := fun _ => true } : World).pathExists
        RIME_SYSTEM_DIR = true
    ∧ ({ allOkWorld with dirEmpty := fun _ => true } : World).dirEmpty
        RIME_SYSTEM_DIR = true
    ∧ Event.sudoMkdir (backupDirOf { allOkWorld with dirEmpty := fun _ => true }) ∈
        (copy_to_system_dir { allOkWorld with dirEmpty := fun _ => true }
          "./extracted/flypy" RIME_SYSTEM_DIR
          (backupDirOf { allOkWorld with dirEmpty := fun _ => true })).2 := by
  refine ⟨rfl, rfl, ?_⟩
  decide

/-- C1 (amended): the backup directory is created whenever the target
system directory exists — even when it is empty — and is not created when
the target does not exist; it is *populated* (target mirrored into it)
exactly when the target exists and is non-empty. -/
theorem backup_creation_iff (w : World) (cfg tgt b : String)
    (hcfg : w.pathExists cfg = true)
    (hb : b ≠ tgt)
    (hmk : w.mkdirOk b = true) :
    (Event.sudoMkdir b ∈ (copy_to_system_dir w cfg tgt b).2 ↔
      w.pathExists tgt = true)
    ∧ (Event.sudoRsync tgt b ∈ (copy_to_system_dir w cfg tgt b).2 ↔
        (w.pathExists tgt = true ∧ w.dirEmpty tgt = false)) := by
  have hb' : tgt ≠ b := Ne.symm hb
  cases hex : w.pathExists tgt <;>
    cases hemp : w.dirEmpty tgt <;>
      cases h1 : w.rsyncOk tgt b <;>
        cases h2 : w.mkdirOk tgt <;>
          cases h3 : w.rsyncOk cfg tgt <;>
            cases h4 : w.chmodDirsOk tgt <;>
              cases h5 : w.chmodFilesOk tgt <;>
                simp [copy_to_system_dir, backupPhase, create_dir_with_sudo,
                  run_rsync_with_sudo, fix_permissions, seqCmd, hcfg, hmk,
                  hex, hemp, h1, h2, h3, h4, h5, hb, hb']

/-- Witness for C1 (amended) at a run with an existing non-empty target. -/
theorem backup_creation_iff_witness :
    (Event.sudoMkdir (backupDirOf allOkWorld) ∈
        (copy_to_system_dir allOkWorld "./extracted/flypy" RIME_SYSTEM_DIR
          (backupDirOf allOkWorld)).2 ↔
      allOkWorld.pathExists RIME_SYSTEM_DIR = true)
    ∧ (Event.sudoRsync RIME_SYSTEM_DIR (backupDirOf allOkWorld) ∈
        (copy_to_system_dir allOkWorld "./extracted/flypy" RIME_SYSTEM_DIR
          (backupDirOf allOkWorld)).2 ↔
        (allOkWorld.pathExists RIME_SYSTEM_DIR = true ∧
          allOkWorld.dirEmpty RIME_SYSTEM_DIR = false)) :=
  backup_creation_iff allOkWorld "./extracted/flypy" RIME_SYSTEM_DIR
    (backupDirOf allOkWorld) rfl (by decide) rfl

/-- C8: when the target exists and is non-empty, the run's trace begins
with backup-directory creation, then the mirror of the target into the
backup, and only after both comes the creation of the target and the
mirror of the source into the target: the backup is created and populated
strictly before the target is overwritten. -/
theorem backup_before_overwrite (w : World) (cfg tgt b : String)
    (hcfg : w.pathExists cfg = true)
    (hex : w.pathExists tgt = true)
    (hemp : w.dirEmpty tgt = false)
    (hmkb : w.mkdirOk b = true)
    (hrs : w.rsyncOk tgt b = true)
    (hmkt : w.mkdirOk tgt = true) :
    ((copy_to_system_dir w cfg tgt b).2).take 4 =
      [Event.sudoMkdir b, Event.sudoRsync tgt b,
        Event.sudoMkdir tgt, Event.sudoRsync cfg tgt] := by
  cases h3 : w.rsyncOk cfg tgt <;>
    cases h4 : w.chmodDirsOk tgt <;>
      cases h5 : w.chmodFilesOk tgt <;>
        simp [copy_to_system_dir, backupPhase, create_dir_with_sudo,
          run_rsync_with_sudo, fix_permissions, seqCmd, hcfg, hex, hemp, hmkb,
          hrs, hmkt, h3, h4, h5]

/-- Witness for C8 in the all-successful run. -/
theorem backup_before_overwrite_witness :
    ((copy_to_system_dir allOkWorld "./extracted/flypy" RIME_SYSTEM_DIR
        (backupDirOf allOkWorld)).2).take 4 =
      [Event.sudoMkdir (backupDirOf allOkWorld),
        Event.sudoRsync RIME_SYSTEM_DIR (backupDirOf allOkWorld),
        Event.sudoMkdir RIME_SYSTEM_DIR,
        Event.sudoRsync "./extracted/flypy" RIME_SYSTEM_DIR] :=
  backup_before_overwrite allOkWorld "./extracted/flypy" RIME_SYSTEM_DIR
    (backupDirOf allOkWorld) rfl rfl rfl rfl rfl rfl

/-- C9: the orchestrator succeeds exactly when dependency installation,
configuration acquisition and system-directory synchronization all
succeed in that order; a failing first step ends the run with that error
and exactly the first step's side effects; a failing second step ends the
run with that error and only the first two steps' side effects; when the
first two steps succeed the run's result is the third step's and the
trace is the three steps' traces in order. -/
theorem orchestrator_sequence (w : World) :
    ((mainFlow w).1 = Except.ok () ↔
      ((check_and_install_dependencies w defaultPackageManagers
          defaultDependencies).1 = Except.ok ()
        ∧ ∃ cfg, (get_config_files w (some defaultArchive)).1 = Except.ok cfg
            ∧ (copy_to_system_dir w cfg RIME_SYSTEM_DIR (backupDirOf w)).1 =
                Except.ok ()))
    ∧ (∀ e, (check_and_install_dependencies w defaultPackageManagers
          defaultDependencies).1 = Except.error e →
        mainFlow w = (Except.error e,
          (check_and_install_dependencies w defaultPackageManagers
            defaultDependencies).2))
    ∧ (∀ e, (check_and_install_dependencies w defaultPackageManagers
          defaultDependencies).1 = Except.ok () →
        (get_config_files w (some defaultArchive)).1 = Except.error e →
        mainFlow w = (Except.error e,
          (check_and_install_dependencies w defaultPackageManagers
            defaultDependencies).2 ++
            (get_config_files w (some defaultArchive)).2))
    ∧ (∀ cfg, (check_and_install_dependencies w defaultPackageManagers
          defaultDependencies).1 = Except.ok () →
        (get_config_files w (some defaultArchive)).1 = Except.ok cfg →
        mainFlow w =
          ((copy_to_system_dir w cfg RIME_SYSTEM_DIR (backupDirOf w)).1,
            (check_and_install_dependencies w defaultPackageManagers
              defaultDependencies).2 ++
              ((get_config_files w (some defaultArchive)).2 ++
                (copy_to_system_dir w cfg RIME_SYSTEM_DIR (backupDirOf w)).2))) := by
  rcases hs1 : check_and_install_dependencies w defaultPackageManagers
    defaultDependencies with ⟨r1, t1⟩
  rcases hs2 : get_config_files w (some defaultArchive) with ⟨r2, t2⟩
  cases r1 with
  | error e1 =>
    refine ⟨?_, ?_, ?_, ?_⟩ <;>
      simp [mainFlow, seqCmd, hs1, hs2]
  | ok u1 =>
    cases u1
    cases r2 with
    | error e2 =>
      refine ⟨?_, ?_, ?_, ?_⟩ <;>
        simp [mainFlow, seqCmd, hs1, hs2]
    | ok cfg =>
      rcases hs3 : copy_to_system_dir w cfg RIME_SYSTEM_DIR (backupDirOf w)
        with ⟨r3, t3⟩
      cases r3 with
      | error e3 =>
        refine ⟨?_, ?_, ?_, ?_⟩ <;>
          simp [mainFlow, seqCmd, hs1, hs2, hs3]
      | ok u3 =>
        cases u3
        refine ⟨?_, ?_, ?_, ?_⟩ <;>
          simp [mainFlow, seqCmd, hs1, hs2, hs3]

/-- Witness for C9: with no dependency present and no package manager
binary on disk, the run ends with the no-package-manager error and only
the `which` invocations as side effects. -/
theorem orchestrator_sequence_witness :
    mainFlow { allOkWorld with
        whichOk := fun _ => false, pathExists := fun _ => false } =
      (Except.error
        ("无法确定包管理器，请手动安装: " ++
          debugStrList (missingDeps
            { allOkWorld with
                whichOk := fun _ => false, pathExists := fun _ => false }
            defaultDependencies)),
        (check_and_install_dependencies
          { allOkWorld with
              whichOk := fun _ => false, pathExists := fun _ => false }
          defaultPackageManagers defaultDependencies).2) :=
  (orchestrator_sequence
      { allOkWorld with
          whichOk := fun _ => false, pathExists := fun _ => false }).2.1
    _ rfl
